import Mathlib

/-!
# Verification of IMDb-Scraper scraping services

Shallow embedding of the scraping-service layer of the IMDb-Scraper backend
(`backend/app/services/scraping/`) together with proofs about its behaviour.

The embedded functions are:

* `ProxyManager` with `getCurrentProxy`, `rotateProxy`, `calculateScore`,
  `getBestProxy` (from `proxy_manager.py`);
* `MediaDownloader` with `downloadFileData` (retry loop with exponential
  backoff), `generate_filename`, `storage_save_filename` (the filename the
  storage service writes), `download_media_file`, `download_multiple_files`
  and `configure_download_settings` (from `media_downloader.py` and
  `storage_service.py`);
* `check_for_bot_detection` (from `anti_detection.py`);
* `navigate_to_page` (from `imdb_scraper.py`).

Python mutable state is passed explicitly; network, clock and filesystem
effects are parameters (a response per attempt, an explicit timestamp
string, an explicit file store).  Python `float` arithmetic on scores and
confidences is modelled with `ℚ`.
-/

namespace IMDbScraper

/-- Mirror of the `ProxyInfo` dataclass in `proxy_manager.py` (fields that
the scoring / rotation logic reads; `last_used`, `country`, `isp` are not
read by any embedded function and are omitted). -/
structure ProxyInfo where
  host : String
  port : Nat
  protocol : String := "http"
  success_count : Nat := 0
  failure_count : Nat := 0
  avg_response_time : ℚ := 0
  is_working : Bool := true
  deriving Repr, DecidableEq

/-- Mirror of the mutable state of `ProxyManager` that `get_current_proxy`,
`rotate_proxy` and `get_best_proxy` read and write. -/
structure ProxyManager where
  proxies : List ProxyInfo
  current_proxy_index : Nat := 0
  rotation_enabled : Bool := true
  deriving Repr, DecidableEq

/-- `proxy.is_working = True` assignment used in the pool reset. -/
def ProxyInfo.reset (p : ProxyInfo) : ProxyInfo :=
  { p with is_working := true }

/-- The working sub-pool `[p for p in self.proxies if p.is_working]`. -/
def ProxyManager.working (m : ProxyManager) : List ProxyInfo :=
  m.proxies.filter (fun p => p.is_working)

/-- `ProxyManager.get_current_proxy` (proxy_manager.py lines 76-93).
Returns `None` on an empty pool; if no proxy is working, resets
`is_working := true` on every proxy and uses the whole pool; clamps the
index to 0 when it is out of range; returns the working proxy at the
index.  The Python method mutates `self`, so the embedding returns the
chosen proxy together with the updated manager.  `getCurrentProxySelect`
is the tail of the method after the reset branch: the index clamp
(`if self.current_proxy_index >= len(working_proxies)`) followed by the
`working_proxies[self.current_proxy_index]` lookup. -/
def getCurrentProxySelect (m' : ProxyManager) : Option ProxyInfo × ProxyManager :=
  if (m'.working).length ≤ m'.current_proxy_index then
    ((m'.working).get? 0, { m' with current_proxy_index := 0 })
  else ((m'.working).get? m'.current_proxy_index, m')

def getCurrentProxy (m : ProxyManager) : Option ProxyInfo × ProxyManager :=
  if m.proxies.isEmpty then (none, m)
  else if (m.working).isEmpty then
    getCurrentProxySelect { m with proxies := m.proxies.map ProxyInfo.reset }
  else getCurrentProxySelect m

/-- `ProxyManager.rotate_proxy` (proxy_manager.py lines 95-112).
No-op (returning the current proxy) when rotation is disabled, the pool has
at most one proxy, or at most one proxy is working; otherwise advances
`current_proxy_index` by one modulo the number of working proxies and
returns the new current proxy. -/
def rotateProxy (m : ProxyManager) : Option ProxyInfo × ProxyManager :=
  if m.rotation_enabled = false ∨ m.proxies.length ≤ 1 then
    getCurrentProxy m
  else if (m.working).length ≤ 1 then
    getCurrentProxy m
  else
    getCurrentProxy
      { m with
        current_proxy_index :=
          (m.current_proxy_index + 1) % (m.working).length }

/-- The inner `calculate_score` of `ProxyManager.get_best_proxy`
(proxy_manager.py lines 359-369): neutral score `0.5` for a proxy with no
recorded requests, otherwise success rate minus a response-time penalty
capped at `1.0`. -/
def calculateScore (p : ProxyInfo) : ℚ :=
  if p.success_count + p.failure_count = 0 then 1/2
  else
    (p.success_count : ℚ) / ((p.success_count : ℚ) + (p.failure_count : ℚ))
      - min (p.avg_response_time / 10) 1

/-- Python's `max(xs, key=f)`: folds over the tail keeping the current
best and replacing it only on a strictly larger key, so the first element
attaining the maximum wins ties. -/
def maxByFirst (f : ProxyInfo → ℚ) (b : ProxyInfo) (l : List ProxyInfo) : ProxyInfo :=
  l.foldl (fun best q => if f best < f q then q else best) b

/-- `ProxyManager.get_best_proxy` (proxy_manager.py lines 350-372):
`None` when no working proxy exists, otherwise `max` of the working pool
under `calculate_score`. -/
def getBestProxy (m : ProxyManager) : Option ProxyInfo :=
  match m.working with
  | [] => none
  | b :: l => some (maxByFirst calculateScore b l)

/-- Modelled from the claim's words for comparison with `calculateScore`:
the score `success_count/(success_count+failure_count) −
min(avg_response_time/10, 1.0)` with no special case for proxies that have
no recorded requests (in `ℚ`, `0/0 = 0`). -/
def claimedScore (p : ProxyInfo) : ℚ :=
  (p.success_count : ℚ) / ((p.success_count : ℚ) + (p.failure_count : ℚ))
    - min (p.avg_response_time / 10) 1

/-! ## MediaDownloader: settings -/

/-- The four tunable settings of `MediaDownloader` (media_downloader.py
lines 28-31).  Python integers may be negative, so the fields are `Int`. -/
structure DownloaderSettings where
  concurrent_downloads : Int
  download_timeout : Int
  max_file_size : Int
  retry_attempts : Int
  deriving Repr, DecidableEq

/-- The values set in `MediaDownloader.__init__`. -/
def initSettings : DownloaderSettings :=
  { concurrent_downloads := 5
    download_timeout := 30
    max_file_size := 100 * 1024 * 1024
    retry_attempts := 3 }

/-- `MediaDownloader.configure_download_settings` (media_downloader.py
lines 442-472): each argument, when present, is clamped into its range via
`max lo (min x hi)`; an absent (`None`) argument leaves the setting
unchanged. -/
def configure_download_settings (s : DownloaderSettings)
    (concurrent_downloads download_timeout max_file_size retry_attempts : Option Int) :
    DownloaderSettings :=
  let s := match concurrent_downloads with
    | none => s
    | some x => { s with concurrent_downloads := max 1 (min x 20) }
  let s := match download_timeout with
    | none => s
    | some x => { s with download_timeout := max 10 (min x 300) }
  let s := match max_file_size with
    | none => s
    | some x => { s with max_file_size := max (1024 * 1024) (min x (1024 * 1024 * 1024)) }
  let s := match retry_attempts with
    | none => s
    | some x => { s with retry_attempts := max 1 (min x 10) }
  s

/-- The ranges enforced by `configure_download_settings`. -/
def SettingsInRange (s : DownloaderSettings) : Prop :=
  1 ≤ s.concurrent_downloads ∧ s.concurrent_downloads ≤ 20 ∧
  10 ≤ s.download_timeout ∧ s.download_timeout ≤ 300 ∧
  1024 * 1024 ≤ s.max_file_size ∧ s.max_file_size ≤ 1024 * 1024 * 1024 ∧
  1 ≤ s.retry_attempts ∧ s.retry_attempts ≤ 10

instance (s : DownloaderSettings) : Decidable (SettingsInRange s) := by
  unfold SettingsInRange; infer_instance

/-! ## MediaDownloader: `_download_file_data` retry loop -/

/-- What the network hands one `session.get` in `_download_file_data`:
either a response (status, optional `Content-Length` header, body bytes)
or a transport error. -/
inductive FetchOutcome where
  | ok (status : Nat) (contentLength : Option Nat) (body : List Nat)
  | netError (msg : String)
  deriving Repr, DecidableEq

/-- One attempt of the `try` body of `_download_file_data`
(media_downloader.py lines 134-192): on status 200 the oversized
`Content-Length` check raises `ValueError` *before* `response.read()`;
otherwise the body is read and returned; a non-200 status raises
`ClientResponseError`.  The `Bool` records whether the body was read. -/
def attemptResult (maxFileSize : Nat) : FetchOutcome → Except String (List Nat) × Bool
  | .netError m => (.error m, false)
  | .ok status contentLength body =>
    if status = 200 then
      match contentLength with
      | some n =>
        if maxFileSize < n then
          (.error ("File too large: " ++ toString n ++ " bytes"), false)
        else (.ok body, true)
      | none => (.ok body, true)
    else (.error ("HTTP " ++ toString status), false)

/-- Trace of one run of `_download_file_data`: how many network GETs were
made, how many bodies were fully read, the backoff sleeps performed, and
the outcome (`ok none` models the `return None, file_info` fall-through of
an empty attempt range). -/
structure DownloadTrace where
  fetches : Nat
  bodiesRead : Nat
  delays : List Nat
  result : Except String (Option (List Nat))
  deriving Repr

/-- The `for attempt in range(self.retry_attempts)` loop of
`_download_file_data` (media_downloader.py lines 133-210): a successful
attempt returns its data; a failed attempt re-raises on the last attempt
and otherwise sleeps `2 ** attempt` seconds and retries.  `attempt` is the
current 0-based attempt index and `remaining` the attempts left. -/
def downloadLoop (maxFileSize : Nat) (responses : Nat → FetchOutcome) :
    Nat → Nat → DownloadTrace
  | _, 0 => { fetches := 0, bodiesRead := 0, delays := [], result := .ok none }
  | attempt, r + 1 =>
    match attemptResult maxFileSize (responses attempt) with
    | (.ok body, readFlag) =>
      { fetches := 1, bodiesRead := if readFlag then 1 else 0, delays := []
        result := .ok (some body) }
    | (.error e, readFlag) =>
      if r = 0 then
        { fetches := 1, bodiesRead := if readFlag then 1 else 0, delays := []
          result := .error e }
      else
        let rest := downloadLoop maxFileSize responses (attempt + 1) r
        { fetches := rest.fetches + 1
          bodiesRead := (if readFlag then 1 else 0) + rest.bodiesRead
          delays := 2 ^ attempt :: rest.delays
          result := rest.result }

/-- `MediaDownloader._download_file_data` (media_downloader.py lines
124-210), run with a given `max_file_size`, `retry_attempts` and network
behaviour. -/
def downloadFileData (maxFileSize retryAttempts : Nat)
    (responses : Nat → FetchOutcome) : DownloadTrace :=
  downloadLoop maxFileSize responses 0 retryAttempts

/-! ## Filenames: downloader check vs. storage write -/

/-- `MediaDownloader._generate_filename` (media_downloader.py lines
220-236): `movie_{movie_id}_{file_type}_{quality}_{timestamp}{extension}`.
The timestamp (`datetime.now().strftime` at call time) and the extension
(`_get_file_extension(url)`) are explicit parameters. -/
def generate_filename (movie_id : Nat) (file_type quality timestamp ext : String) :
    String :=
  "movie_" ++ toString movie_id ++ "_" ++ file_type ++ "_" ++ quality ++ "_"
    ++ timestamp ++ ext

/-- The character filter of `StorageService._generate_safe_filename`
(storage_service.py line 38): keep alphanumerics and `.`, `_`, `-`. -/
def safeName (s : String) : String :=
  String.mk (s.data.filter (fun c => c.isAlphanum || c = '.' || c = '_' || c = '-'))

/-- `StorageService._generate_safe_filename` with no prefix argument
(storage_service.py lines 35-46): sanitise, then prepend a timestamp.
Splitting off the extension and re-appending it reassembles the sanitised
name unchanged, so the result is `{timestamp}_{safe_name}`. -/
def generate_safe_filename (original timestamp : String) : String :=
  timestamp ++ "_" ++ safeName original

/-- The filename under which `StorageService.save_downloaded_media`
(storage_service.py lines 56-100) writes the file:
`_generate_safe_filename("movie_{movie_id}_{file_type}{file_extension}")`. -/
def storage_save_filename (movie_id : Nat) (file_type ext timestamp : String) :
    String :=
  generate_safe_filename ("movie_" ++ toString movie_id ++ "_" ++ file_type ++ ext)
    timestamp

/-! ## `download_media_file` -/

/-- Downloader-visible effects state: the set of filenames present in the
`movie_{id}` download directory, and a counter of network GETs issued. -/
structure DMState where
  store : List String
  fetchCount : Nat
  deriving Repr, DecidableEq

/-- Call environment of one `download_media_file` call: the verdict of
`_is_valid_url(url)`, the network behaviour per attempt, the timestamp
string `datetime.now()` produces during the call, the extension
`_get_file_extension` derives from the url, and whether the storage
service's filesystem write succeeds. -/
structure DownloadEnv where
  validUrl : Bool
  responses : Nat → FetchOutcome
  ts : String
  ext : String
  saveOk : Bool

/-- Result fields of `download_media_file` that the claims read. -/
structure MDResult where
  success : Bool
  error : Option String
  deriving Repr, DecidableEq

/-- `MediaDownloader.download_media_file` (media_downloader.py lines
39-122): validate the URL, compute the `_generate_filename` name; unless
`force_download`, short-circuit returning success when that name already
exists in the movie directory (`_check_existing_file`); otherwise run
`_download_file_data` and hand the bytes to
`StorageService.save_downloaded_media`, which stores them under its own
`storage_save_filename` name.  Every raised error is caught by the
`except` block and surfaced as `success = False` with `error` set. -/
def download_media_file (maxFileSize retryAttempts : Nat) (env : DownloadEnv)
    (movie_id : Nat) (file_type quality : String) (force_download : Bool)
    (st : DMState) : MDResult × DMState :=
  if env.validUrl = false then
    ({ success := false, error := some "Invalid URL" }, st)
  else
    let fname := generate_filename movie_id file_type quality env.ts env.ext
    if force_download = false ∧ fname ∈ st.store then
      ({ success := true, error := none }, st)
    else
      let trace := downloadFileData maxFileSize retryAttempts env.responses
      let st₁ : DMState := { st with fetchCount := st.fetchCount + trace.fetches }
      match trace.result with
      | .error e => ({ success := false, error := some e }, st₁)
      | .ok none => ({ success := false, error := some "No data downloaded" }, st₁)
      | .ok (some body) =>
        if body.isEmpty then
          ({ success := false, error := some "No data downloaded" }, st₁)
        else if maxFileSize < body.length then
          ({ success := false
             error := some ("File too large: " ++ toString body.length ++ " bytes") }, st₁)
        else if env.saveOk then
          ({ success := true, error := none },
           { st₁ with
             store := storage_save_filename movie_id file_type env.ext env.ts :: st₁.store })
        else
          ({ success := false, error := some "Failed to save file" }, st₁)

/-! ## `download_multiple_files` -/

/-- An entry of the list returned by `download_multiple_files`: either the
per-file result dict, or the error dict built from a task that raised. -/
inductive BatchResult (Req Res : Type) where
  | done (r : Res)
  | failed (error : String) (request : Req)
  deriving Repr, DecidableEq

/-- `MediaDownloader.download_multiple_files` (media_downloader.py lines
280-323).  `asyncio.gather(*tasks, return_exceptions=True)` returns, by
its contract, one slot per task in task order independent of completion
order; `outcome i` is what the `i`-th task produced (its result dict, or
the exception it raised).  The processing loop turns slot `i` into a
failure record holding `download_requests[i]` when it is an exception and
keeps it otherwise.  `processResults` walks the gather slots in index
order, `i` being the index of the head slot. -/
def processResults {Req Res : Type} (outcome : Nat → Except String Res) :
    Nat → List Req → List (BatchResult Req Res)
  | _, [] => []
  | i, req :: rest =>
    (match outcome i with
     | .error e => .failed e req
     | .ok r => .done r) :: processResults outcome (i + 1) rest

/-- `MediaDownloader.download_multiple_files`: run the tasks, gather in
task order, post-process. -/
def download_multiple_files {Req Res : Type} (requests : List Req)
    (outcome : Nat → Except String Res) : List (BatchResult Req Res) :=
  processResults outcome 0 requests

/-! ## `AntiDetection.check_for_bot_detection` -/

/-- Bool-valued "is `needle` a contiguous substring of `hay`" on character
lists, modelling Python's `in` on strings. -/
def containsSub (needle : List Char) : List Char → Bool
  | [] => needle.isEmpty
  | b :: bs => needle.isPrefixOf (b :: bs) || containsSub needle bs

/-- Python `needle in hay` for strings. -/
def strIn (needle hay : String) : Bool :=
  containsSub needle.data hay.data

/-- The `bot_indicators` list (anti_detection.py lines 255-266). -/
def botIndicators : List String :=
  ["captcha", "recaptcha", "g-recaptcha", "robot", "access denied",
   "please verify", "unusual traffic", "automated queries", "bot detected",
   "verification required"]

/-- The `captcha_selectors` list (anti_detection.py lines 284-290). -/
def captchaSelectors : List String :=
  ["[id*=\"captcha\"]", "[class*=\"captcha\"]", "[id*=\"recaptcha\"]",
   "[class*=\"recaptcha\"]", "iframe[src*=\"recaptcha\"]"]

/-- The indicator collection of `check_for_bot_detection`
(anti_detection.py lines 274-305): keyword hits in the lowercased page
content, one entry per captcha selector with matches (`selectorHit`
abstracts `page.query_selector_all`), one entry if any keyword occurs in
the lowercased title, one if `captcha`/`verify`/`blocked` occurs in the
lowercased URL. -/
def collectIndicators (contentLower : String) (selectorHit : String → Bool)
    (title url : String) : List String :=
  botIndicators.filter (fun ind => strIn ind contentLower)
    ++ (captchaSelectors.filter selectorHit).map (fun s => "captcha_element: " ++ s)
    ++ (if botIndicators.any (fun ind => strIn ind (title.toLower))
        then ["title: " ++ title] else [])
    ++ (if ["captcha", "verify", "blocked"].any (fun ind => strIn ind (url.toLower))
        then ["url: " ++ url] else [])

/-- The detection result of `check_for_bot_detection` (anti_detection.py
lines 268-315): `detected` and `confidence` stay at their initial
`False` / `0.0` when no indicator was collected, else `detected = True`
and `confidence = min(len(indicators) * 0.3, 1.0)`. -/
def check_for_bot_detection (contentLower : String) (selectorHit : String → Bool)
    (title url : String) : Bool × List String × ℚ :=
  let inds := collectIndicators contentLower selectorHit title url
  if inds.isEmpty then (false, inds, 0)
  else (true, inds, min ((inds.length : ℚ) * (3/10)) 1)

/-- `min(n * 0.3, 1.0)` as a function of the indicator count. -/
def confOfCount (n : Nat) : ℚ := min ((n : ℚ) * (3/10)) 1

/-! ## `IMDbScraper.navigate_to_page` -/

/-- What one navigation attempt of `navigate_to_page` runs into: the page
loads clean, the page loads but `check_for_bot_detection` reports
`detected`, or `page.goto`/the anti-detection sequence raises. -/
inductive NavOutcome where
  | success
  | blocked
  | navError
  deriving Repr, DecidableEq

/-- The two counters of `self.scraping_stats` that `navigate_to_page`
touches. -/
structure ScrapeStats where
  pages_visited : Nat
  errors : Nat
  deriving Repr, DecidableEq

/-- The `for attempt in range(retries)` loop of `navigate_to_page`
(imdb_scraper.py lines 130-170): a clean load bumps `pages_visited` and
returns `True`; a detected block returns `False` on the last attempt
(after rotating the proxy) and otherwise retries; a raised exception is
caught, and on the last attempt bumps `errors` and returns `False`,
otherwise retries. -/
def navigateLoop (outcomes : Nat → NavOutcome) :
    Nat → Nat → ScrapeStats → Bool × ScrapeStats
  | _, 0, stats => (false, stats)
  | attempt, r + 1, stats =>
    match outcomes attempt with
    | .success => (true, { stats with pages_visited := stats.pages_visited + 1 })
    | .blocked =>
      if r = 0 then (false, stats)
      else navigateLoop outcomes (attempt + 1) r stats
    | .navError =>
      if r = 0 then (false, { stats with errors := stats.errors + 1 })
      else navigateLoop outcomes (attempt + 1) r stats

/-- `IMDbScraper.navigate_to_page` (imdb_scraper.py lines 127-170) with
`retries` attempts, starting from the given stats. -/
def navigate_to_page (outcomes : Nat → NavOutcome) (retries : Nat)
    (stats : ScrapeStats) : Bool × ScrapeStats :=
  navigateLoop outcomes 0 retries stats

/-! ## Helper lemmas -/

lemma working_map_reset (l : List ProxyInfo) :
    (l.map ProxyInfo.reset).filter (fun p => p.is_working) = l.map ProxyInfo.reset := by
  apply List.filter_eq_self.mpr
  intro a ha
  obtain ⟨b, _, rfl⟩ := List.mem_map.mp ha
  rfl

lemma working_eq_self (m : ProxyManager) (hW : ∀ p ∈ m.proxies, p.is_working = true) :
    m.working = m.proxies := by
  unfold ProxyManager.working
  exact List.filter_eq_self.mpr hW

/-- The selection tail never changes the proxies list. -/
lemma getCurrentProxySelect_proxies (m' : ProxyManager) :
    (getCurrentProxySelect m').2.proxies = m'.proxies := by
  unfold getCurrentProxySelect
  by_cases hidx : (m'.working).length ≤ m'.current_proxy_index
  · rw [if_pos hidx]
  · rw [if_neg hidx]

/-- On a non-empty working pool the selection tail returns a working
proxy. -/
lemma getCurrentProxySelect_some (m' : ProxyManager) (hwne : m'.working ≠ []) :
    ∃ p, (getCurrentProxySelect m').1 = some p ∧ p ∈ m'.working := by
  unfold getCurrentProxySelect
  by_cases hidx : (m'.working).length ≤ m'.current_proxy_index
  · rw [if_pos hidx]
    have h0 : 0 < (m'.working).length := List.length_pos.mpr hwne
    exact ⟨(m'.working).get ⟨0, h0⟩, List.get?_eq_get h0, List.get_mem _ 0 h0⟩
  · rw [if_neg hidx]
    push_neg at hidx
    exact ⟨(m'.working).get ⟨m'.current_proxy_index, hidx⟩,
      List.get?_eq_get hidx, List.get_mem _ _ hidx⟩

/-- When every proxy works and the index is in range, `get_current_proxy`
leaves the manager untouched and returns the proxy at the index. -/
lemma getCurrentProxy_all_working (m : ProxyManager)
    (hW : ∀ p ∈ m.proxies, p.is_working = true)
    (hi : m.current_proxy_index < m.proxies.length) :
    getCurrentProxy m = (m.proxies.get? m.current_proxy_index, m) := by
  have hne : m.proxies ≠ [] := by
    intro h; rw [h] at hi; simp at hi
  have hw := working_eq_self m hW
  unfold getCurrentProxy
  rw [if_neg (by simpa [List.isEmpty_iff] using hne)]
  rw [if_neg (by simpa [List.isEmpty_iff, hw] using hne)]
  unfold getCurrentProxySelect
  rw [hw, if_neg (by omega)]

/-- Claim C2 core: on a non-empty pool `get_current_proxy` never returns
`None`, and the returned proxy is in the (possibly reset) pool. -/
lemma getCurrentProxy_some_mem (m : ProxyManager) (h : m.proxies ≠ []) :
    ∃ p, (getCurrentProxy m).1 = some p ∧ p ∈ (getCurrentProxy m).2.proxies := by
  unfold getCurrentProxy
  rw [if_neg (by simpa [List.isEmpty_iff] using h)]
  by_cases hc : (m.working).isEmpty
  · rw [if_pos hc]
    set mr : ProxyManager := { m with proxies := m.proxies.map ProxyInfo.reset } with hmr
    have hwne : mr.working ≠ [] := by
      show (m.proxies.map ProxyInfo.reset).filter _ ≠ []
      rw [working_map_reset]
      simpa using h
    obtain ⟨p, hp, hpm⟩ := getCurrentProxySelect_some mr hwne
    exact ⟨p, hp, by
      rw [getCurrentProxySelect_proxies]
      exact List.mem_of_mem_filter hpm⟩
  · rw [if_neg hc]
    have hwne : m.working ≠ [] := by simpa [List.isEmpty_iff] using hc
    obtain ⟨p, hp, hpm⟩ := getCurrentProxySelect_some m hwne
    exact ⟨p, hp, by
      rw [getCurrentProxySelect_proxies]
      exact List.mem_of_mem_filter hpm⟩

/-- The proxies list after `get_current_proxy` on an all-failed pool is the
reset pool. -/
lemma getCurrentProxy_resets (m : ProxyManager)
    (hdead : ∀ p ∈ m.proxies, p.is_working = false) (h : m.proxies ≠ []) :
    (getCurrentProxy m).2.proxies = m.proxies.map ProxyInfo.reset := by
  have hwempty : (m.working).isEmpty = true := by
    simp only [List.isEmpty_iff]
    unfold ProxyManager.working
    rw [List.filter_eq_nil_iff]
    intro a ha
    simp [hdead a ha]
  unfold getCurrentProxy
  rw [if_neg (by simpa [List.isEmpty_iff] using h)]
  rw [if_pos hwempty]
  rw [getCurrentProxySelect_proxies]

/-- **C2.** On a non-empty pool `ProxyManager.get_current_proxy` returns a
proxy (it is `None` exactly on the empty pool); if every proxy has
`is_working = False`, the call first resets `is_working := True` on all
proxies and then returns one of the (reset) pool. -/
theorem getCurrentProxy_spec (m : ProxyManager) :
    ((getCurrentProxy m).1 = none ↔ m.proxies = [])
    ∧ ((∀ p ∈ m.proxies, p.is_working = false) → m.proxies ≠ [] →
        (getCurrentProxy m).2.proxies = m.proxies.map ProxyInfo.reset
        ∧ ∃ p, (getCurrentProxy m).1 = some p
            ∧ p ∈ (getCurrentProxy m).2.proxies) := by
  constructor
  · constructor
    · intro hnone
      by_contra hne
      obtain ⟨p, hp, _⟩ := getCurrentProxy_some_mem m hne
      rw [hnone] at hp
      exact Option.noConfusion hp
    · intro hnil
      unfold getCurrentProxy
      rw [if_pos (by simpa [List.isEmpty_iff] using hnil)]
  · intro hdead hne
    exact ⟨getCurrentProxy_resets m hdead hne, getCurrentProxy_some_mem m hne⟩

/-- A concrete two-proxy pool with both proxies marked failed. -/
def c2Pool : ProxyManager :=
  { proxies := [{ host := "a", port := 1, is_working := false },
                { host := "b", port := 2, is_working := false }] }

/-- Witness for C2 on a concrete two-proxy pool with both proxies dead:
the call resets the pool and returns a proxy. -/
theorem getCurrentProxy_spec_witness :
    (getCurrentProxy c2Pool).2.proxies = c2Pool.proxies.map ProxyInfo.reset
    ∧ ((getCurrentProxy c2Pool).1).isSome = true := by
  have h := (getCurrentProxy_spec c2Pool).2 (by decide) (by decide)
  obtain ⟨hres, p, hp, _⟩ := h
  exact ⟨hres, by rw [hp]; rfl⟩

/-- One `rotate_proxy` on an all-working pool with an in-range index just
advances the index by one modulo the pool size. -/
lemma rotateProxy_step (m : ProxyManager)
    (hW : ∀ p ∈ m.proxies, p.is_working = true)
    (hi : m.current_proxy_index < m.proxies.length)
    (hr : m.rotation_enabled = true) :
    (rotateProxy m).2
      = { m with current_proxy_index :=
            (m.current_proxy_index + 1) % m.proxies.length } := by
  have hw := working_eq_self m hW
  unfold rotateProxy
  by_cases hlen : m.proxies.length ≤ 1
  · rw [if_pos (Or.inr hlen)]
    have hlen1 : m.proxies.length = 1 := by omega
    have hidx0 : m.current_proxy_index = 0 := by omega
    have hmod : (m.current_proxy_index + 1) % m.proxies.length
        = m.current_proxy_index := by
      rw [hlen1, hidx0]
    rw [getCurrentProxy_all_working m hW hi, hmod]
  · rw [if_neg (by
      rintro (hc | hc)
      · rw [hr] at hc; exact Bool.noConfusion hc
      · exact hlen hc)]
    rw [if_neg (by rw [hw]; omega)]
    rw [hw]
    set m₁ : ProxyManager :=
      { m with current_proxy_index :=
          (m.current_proxy_index + 1) % m.proxies.length } with hm₁
    have hW₁ : ∀ p ∈ m₁.proxies, p.is_working = true := hW
    have hi₁ : m₁.current_proxy_index < m₁.proxies.length := by
      show (m.current_proxy_index + 1) % m.proxies.length < m.proxies.length
      exact Nat.mod_lt _ (by omega)
    rw [getCurrentProxy_all_working m₁ hW₁ hi₁]

/-- Iterating `rotate_proxy` adds the iteration count to the index, modulo
the pool size. -/
lemma rotateProxy_iterate :
    ∀ (k : Nat) (m : ProxyManager),
      (∀ p ∈ m.proxies, p.is_working = true) →
      m.current_proxy_index < m.proxies.length →
      m.rotation_enabled = true →
      (fun s => (rotateProxy s).2)^[k] m
        = { m with current_proxy_index :=
              (m.current_proxy_index + k) % m.proxies.length } := by
  intro k
  induction k with
  | zero =>
    intro m hW hi hr
    simp only [Function.iterate_zero, id_eq]
    rw [Nat.add_zero, Nat.mod_eq_of_lt hi]
  | succ k ih =>
    intro m hW hi hr
    rw [Function.iterate_succ_apply]
    have hstep : (rotateProxy m).2
        = { m with current_proxy_index :=
              (m.current_proxy_index + 1) % m.proxies.length } :=
      rotateProxy_step m hW hi hr
    rw [hstep]
    set m₁ : ProxyManager :=
      { m with current_proxy_index :=
          (m.current_proxy_index + 1) % m.proxies.length } with hm₁
    have hW₁ : ∀ p ∈ m₁.proxies, p.is_working = true := hW
    have hi₁ : m₁.current_proxy_index < m₁.proxies.length :=
      Nat.mod_lt _ (by omega)
    have hr₁ : m₁.rotation_enabled = true := hr
    rw [ih m₁ hW₁ hi₁ hr₁]
    show ({ m with current_proxy_index :=
        ((m.current_proxy_index + 1) % m.proxies.length + k) % m.proxies.length }
        : ProxyManager) = _
    have : ((m.current_proxy_index + 1) % m.proxies.length + k) % m.proxies.length
        = (m.current_proxy_index + (k + 1)) % m.proxies.length := by
      rw [Nat.mod_add_mod]
      ring_nf
    rw [this]

/-- **C6.** On a pool of `N ≥ 1` working proxies with an in-range index:
with rotation enabled, one `rotate_proxy` advances the index by one modulo
the count of working proxies, and `N` calls return the manager (hence the
current proxy) to its original state; with rotation disabled or at most
one proxy in the pool, a call leaves the manager unchanged and returns the
same proxy as `get_current_proxy`. -/
theorem rotateProxy_cycle_spec (m : ProxyManager)
    (hW : ∀ p ∈ m.proxies, p.is_working = true)
    (hi : m.current_proxy_index < m.proxies.length) :
    (m.rotation_enabled = true →
      (rotateProxy m).2
        = { m with current_proxy_index :=
              (m.current_proxy_index + 1) % (m.working).length }
      ∧ (fun s => (rotateProxy s).2)^[m.proxies.length] m = m)
    ∧ ((m.rotation_enabled = false ∨ m.proxies.length ≤ 1) →
        (rotateProxy m).2 = m ∧ (rotateProxy m).1 = (getCurrentProxy m).1) := by
  constructor
  · intro hr
    constructor
    · rw [working_eq_self m hW]
      exact rotateProxy_step m hW hi hr
    · rw [rotateProxy_iterate m.proxies.length m hW hi hr]
      rw [Nat.add_mod_right, Nat.mod_eq_of_lt hi]
  · intro hc
    have hrw : rotateProxy m = getCurrentProxy m := by
      unfold rotateProxy
      rw [if_pos (by
        rcases hc with hc | hc
        · exact Or.inl (by rw [hc])
        · exact Or.inr hc)]
    rw [hrw, getCurrentProxy_all_working m hW hi]
    exact ⟨rfl, rfl⟩

/-- A concrete two-proxy all-working pool, rotation enabled. -/
def c6Pool : ProxyManager :=
  { proxies := [{ host := "a", port := 1 }, { host := "b", port := 2 }],
    current_proxy_index := 0, rotation_enabled := true }

/-- A concrete one-proxy pool with rotation disabled. -/
def c6PoolOff : ProxyManager :=
  { proxies := [{ host := "c", port := 3 }],
    current_proxy_index := 0, rotation_enabled := false }

/-- Witness for C6: a concrete two-proxy working pool cycles back after
two rotations, and a rotation-disabled manager is left unchanged. -/
theorem rotateProxy_cycle_spec_witness :
    (fun s => (rotateProxy s).2)^[2] c6Pool = c6Pool
    ∧ (rotateProxy c6PoolOff).2 = c6PoolOff :=
  ⟨by
    have h := ((rotateProxy_cycle_spec c6Pool (by decide) (by decide)).1 rfl).2
    simpa using h,
   ((rotateProxy_cycle_spec c6PoolOff (by decide) (by decide)).2 (Or.inl rfl)).1⟩

/-- **C7.** `check_for_bot_detection` reports
`confidence = min(0.3 * indicator_count, 1.0)` (also when no indicator was
collected, where both sides are `0`), `detected` exactly when at least one
indicator was collected, confidence within `[0, 1]`, and the confidence
formula is monotonically nondecreasing in the indicator count. -/
theorem check_for_bot_detection_spec (contentLower : String)
    (selectorHit : String → Bool) (title url : String) :
    (check_for_bot_detection contentLower selectorHit title url).2.2
      = confOfCount (check_for_bot_detection contentLower selectorHit title url).2.1.length
    ∧ ((check_for_bot_detection contentLower selectorHit title url).1 = true
        ↔ 0 < (check_for_bot_detection contentLower selectorHit title url).2.1.length)
    ∧ 0 ≤ (check_for_bot_detection contentLower selectorHit title url).2.2
    ∧ (check_for_bot_detection contentLower selectorHit title url).2.2 ≤ 1
    ∧ (∀ a b : Nat, a ≤ b → confOfCount a ≤ confOfCount b) := by
  have hmono : ∀ a b : Nat, a ≤ b → confOfCount a ≤ confOfCount b := by
    intro a b hab
    unfold confOfCount
    apply min_le_min _ le_rfl
    have : (a : ℚ) ≤ (b : ℚ) := by exact_mod_cast hab
    nlinarith
  unfold check_for_bot_detection
  set inds := collectIndicators contentLower selectorHit title url with hinds
  by_cases hc : inds.isEmpty
  · rw [if_pos hc]
    have hlen : inds.length = 0 := by
      rw [List.isEmpty_iff] at hc; rw [hc]; rfl
    refine ⟨?_, by simp [hlen], le_refl 0, by norm_num, hmono⟩
    rw [hlen]
    unfold confOfCount
    norm_num
  · rw [if_neg hc]
    have hlen : 0 < inds.length := by
      rw [List.isEmpty_iff] at hc
      exact List.length_pos.mpr hc
    refine ⟨rfl, by simpa using hlen, ?_, min_le_right _ _, hmono⟩
    apply le_min
    · positivity
    · norm_num

/-- Witness for C7 on a concrete page whose content contains `captcha` and
`robot`, with no selector hits and clean title and URL. -/
theorem check_for_bot_detection_spec_witness :
    (check_for_bot_detection "our captcha blocked this robot" (fun _ => false)
        "Title" "http://x").2.2
      = confOfCount (check_for_bot_detection "our captcha blocked this robot"
          (fun _ => false) "Title" "http://x").2.1.length
    ∧ confOfCount 1 ≤ confOfCount 3 :=
  ⟨(check_for_bot_detection_spec "our captcha blocked this robot" (fun _ => false)
      "Title" "http://x").1,
   (check_for_bot_detection_spec "our captcha blocked this robot" (fun _ => false)
      "Title" "http://x").2.2.2.2 1 3 (by norm_num)⟩

/-- The sleeps recorded by the retry loop started at attempt `a` are
consecutive powers of two starting at `2 ^ a`. -/
lemma downloadLoop_delays_shape (mfs : Nat) (resp : Nat → FetchOutcome) :
    ∀ (r a : Nat), ∃ j,
      (downloadLoop mfs resp a r).delays
        = (List.range j).map (fun k => 2 ^ (a + k)) := by
  intro r
  induction r with
  | zero => intro a; exact ⟨0, rfl⟩
  | succ r ih =>
    intro a
    rcases hres : attemptResult mfs (resp a) with ⟨res, readFlag⟩
    cases res with
    | ok body =>
      refine ⟨0, ?_⟩
      simp only [downloadLoop, hres]
      rfl
    | error e =>
      by_cases hr : r = 0
      · refine ⟨0, ?_⟩
        simp only [downloadLoop, hres, hr, if_pos]
        rfl
      · obtain ⟨j, hj⟩ := ih (a + 1)
        refine ⟨j + 1, ?_⟩
        simp only [downloadLoop, hres, if_neg hr]
        rw [hj, List.range_succ_eq_map]
        simp only [List.map_cons, List.map_map, Nat.add_zero]
        congr 1
        apply List.map_congr_left
        intro k _
        simp only [Function.comp_apply]
        congr 1
        omega

/-- **C8.** The backoff delays slept by `_download_file_data` are, in
attempt order, exactly `2 ^ k` seconds after failed attempt `k`, so each
delay is strictly greater than the one before it. -/
theorem downloadFileData_backoff_spec (mfs ra : Nat) (resp : Nat → FetchOutcome) :
    (downloadFileData mfs ra resp).delays
      = (List.range (downloadFileData mfs ra resp).delays.length).map
          (fun k => 2 ^ k)
    ∧ ∀ k d₁ d₂,
        (downloadFileData mfs ra resp).delays.get? k = some d₁ →
        (downloadFileData mfs ra resp).delays.get? (k + 1) = some d₂ →
        d₁ < d₂ := by
  obtain ⟨j, hj⟩ := downloadLoop_delays_shape mfs resp ra 0
  have hj' : (downloadFileData mfs ra resp).delays
      = (List.range j).map (fun k => 2 ^ k) := by
    unfold downloadFileData
    rw [hj]
    apply List.map_congr_left
    intro k _
    rw [Nat.zero_add]
  have hlen : (downloadFileData mfs ra resp).delays.length = j := by
    rw [hj']; simp
  constructor
  · rw [hlen, hj']
  · intro k d₁ d₂ h₁ h₂
    rw [hj'] at h₁ h₂
    rw [List.get?_map] at h₁ h₂
    rcases hk₁ : (List.range j).get? k with _ | v₁
    · rw [hk₁] at h₁; exact Option.noConfusion h₁
    rcases hk₂ : (List.range j).get? (k + 1) with _ | v₂
    · rw [hk₂] at h₂; exact Option.noConfusion h₂
    rw [hk₁] at h₁
    rw [hk₂] at h₂
    have hv₁ : v₁ = k := by
      have := List.get?_range (by
        by_contra hk
        push_neg at hk
        rw [List.get?_eq_none.mpr (by simpa using hk)] at hk₁
        exact Option.noConfusion hk₁ : k < j)
      rw [this] at hk₁
      exact (Option.some.injEq _ _ ▸ hk₁.symm : _)
    have hv₂ : v₂ = k + 1 := by
      have := List.get?_range (by
        by_contra hk
        push_neg at hk
        rw [List.get?_eq_none.mpr (by simpa using hk)] at hk₂
        exact Option.noConfusion hk₂ : k + 1 < j)
      rw [this] at hk₂
      exact (Option.some.injEq _ _ ▸ hk₂.symm : _)
    have hd₁ : d₁ = 2 ^ k := by
      rw [hv₁] at h₁
      simpa using h₁.symm
    have hd₂ : d₂ = 2 ^ (k + 1) := by
      rw [hv₂] at h₂
      simpa using h₂.symm
    rw [hd₁, hd₂]
    exact Nat.pow_lt_pow_right (by norm_num) (Nat.lt_succ_self k)

/-- Witness for C8: three failing attempts sleep `[1, 2]`, and the second
delay strictly exceeds the first. -/
theorem downloadFileData_backoff_spec_witness :
    (downloadFileData 0 3 (fun _ => FetchOutcome.netError "x")).delays
      = (List.range
          (downloadFileData 0 3 (fun _ => FetchOutcome.netError "x")).delays.length).map
          (fun k => 2 ^ k)
    ∧ (1 : Nat) < 2 :=
  ⟨(downloadFileData_backoff_spec 0 3 (fun _ => FetchOutcome.netError "x")).1,
   (downloadFileData_backoff_spec 0 3 (fun _ => FetchOutcome.netError "x")).2
      0 1 2 (by decide) (by decide)⟩

lemma configure_cd_none (s : DownloaderSettings) (dt mfs ra : Option Int) :
    (configure_download_settings s none dt mfs ra).concurrent_downloads
      = s.concurrent_downloads := by
  rcases dt <;> rcases mfs <;> rcases ra <;> rfl

lemma configure_cd_some (s : DownloaderSettings) (x : Int) (dt mfs ra : Option Int) :
    (configure_download_settings s (some x) dt mfs ra).concurrent_downloads
      = max 1 (min x 20) := by
  rcases dt <;> rcases mfs <;> rcases ra <;> rfl

lemma configure_dt_none (s : DownloaderSettings) (cd mfs ra : Option Int) :
    (configure_download_settings s cd none mfs ra).download_timeout
      = s.download_timeout := by
  rcases cd <;> rcases mfs <;> rcases ra <;> rfl

lemma configure_dt_some (s : DownloaderSettings) (x : Int) (cd mfs ra : Option Int) :
    (configure_download_settings s cd (some x) mfs ra).download_timeout
      = max 10 (min x 300) := by
  rcases cd <;> rcases mfs <;> rcases ra <;> rfl

lemma configure_mfs_none (s : DownloaderSettings) (cd dt ra : Option Int) :
    (configure_download_settings s cd dt none ra).max_file_size
      = s.max_file_size := by
  rcases cd <;> rcases dt <;> rcases ra <;> rfl

lemma configure_mfs_some (s : DownloaderSettings) (x : Int) (cd dt ra : Option Int) :
    (configure_download_settings s cd dt (some x) ra).max_file_size
      = max (1024 * 1024) (min x (1024 * 1024 * 1024)) := by
  rcases cd <;> rcases dt <;> rcases ra <;> rfl

lemma configure_ra_none (s : DownloaderSettings) (cd dt mfs : Option Int) :
    (configure_download_settings s cd dt mfs none).retry_attempts
      = s.retry_attempts := by
  rcases cd <;> rcases dt <;> rcases mfs <;> rfl

lemma configure_ra_some (s : DownloaderSettings) (x : Int) (cd dt mfs : Option Int) :
    (configure_download_settings s cd dt mfs (some x)).retry_attempts
      = max 1 (min x 10) := by
  rcases cd <;> rcases dt <;> rcases mfs <;> rfl

/-- **C10.** The constructor defaults are in range; any call to
`configure_download_settings` keeps all four settings within
`1 ≤ concurrent_downloads ≤ 20`, `10 ≤ download_timeout ≤ 300`,
`1 MiB ≤ max_file_size ≤ 1 GiB` and `1 ≤ retry_attempts ≤ 10`; a supplied
value is clamped to the nearest bound via `max lo (min x hi)` and an
omitted (`None`) argument leaves its setting unchanged. -/
theorem configure_download_settings_spec (s : DownloaderSettings)
    (cd dt mfs ra : Option Int) :
    SettingsInRange initSettings
    ∧ (SettingsInRange s →
        SettingsInRange (configure_download_settings s cd dt mfs ra))
    ∧ (cd = none →
        (configure_download_settings s cd dt mfs ra).concurrent_downloads
          = s.concurrent_downloads)
    ∧ (∀ x, cd = some x →
        (configure_download_settings s cd dt mfs ra).concurrent_downloads
          = max 1 (min x 20))
    ∧ (dt = none →
        (configure_download_settings s cd dt mfs ra).download_timeout
          = s.download_timeout)
    ∧ (∀ x, dt = some x →
        (configure_download_settings s cd dt mfs ra).download_timeout
          = max 10 (min x 300))
    ∧ (mfs = none →
        (configure_download_settings s cd dt mfs ra).max_file_size
          = s.max_file_size)
    ∧ (∀ x, mfs = some x →
        (configure_download_settings s cd dt mfs ra).max_file_size
          = max (1024 * 1024) (min x (1024 * 1024 * 1024)))
    ∧ (ra = none →
        (configure_download_settings s cd dt mfs ra).retry_attempts
          = s.retry_attempts)
    ∧ (∀ x, ra = some x →
        (configure_download_settings s cd dt mfs ra).retry_attempts
          = max 1 (min x 10)) := by
  refine ⟨by decide, ?_, ?_, ?_, ?_, ?_, ?_, ?_, ?_, ?_⟩
  · intro h
    obtain ⟨h₁, h₂, h₃, h₄, h₅, h₆, h₇, h₈⟩ := h
    have hcd : 1 ≤ (configure_download_settings s cd dt mfs ra).concurrent_downloads
        ∧ (configure_download_settings s cd dt mfs ra).concurrent_downloads ≤ 20 := by
      rcases cd with _ | x
      · rw [configure_cd_none]; omega
      · rw [configure_cd_some]; omega
    have hdt : 10 ≤ (configure_download_settings s cd dt mfs ra).download_timeout
        ∧ (configure_download_settings s cd dt mfs ra).download_timeout ≤ 300 := by
      rcases dt with _ | x
      · rw [configure_dt_none]; omega
      · rw [configure_dt_some]; omega
    have hmfs : 1024 * 1024 ≤ (configure_download_settings s cd dt mfs ra).max_file_size
        ∧ (configure_download_settings s cd dt mfs ra).max_file_size
            ≤ 1024 * 1024 * 1024 := by
      rcases mfs with _ | x
      · rw [configure_mfs_none]; omega
      · rw [configure_mfs_some]; omega
    have hra : 1 ≤ (configure_download_settings s cd dt mfs ra).retry_attempts
        ∧ (configure_download_settings s cd dt mfs ra).retry_attempts ≤ 10 := by
      rcases ra with _ | x
      · rw [configure_ra_none]; omega
      · rw [configure_ra_some]; omega
    exact ⟨hcd.1, hcd.2, hdt.1, hdt.2, hmfs.1, hmfs.2, hra.1, hra.2⟩
  · rintro rfl; exact configure_cd_none s dt mfs ra
  · rintro x rfl; exact configure_cd_some s x dt mfs ra
  · rintro rfl; exact configure_dt_none s cd mfs ra
  · rintro x rfl; exact configure_dt_some s x cd mfs ra
  · rintro rfl; exact configure_mfs_none s cd dt ra
  · rintro x rfl; exact configure_mfs_some s x cd dt ra
  · rintro rfl; exact configure_ra_none s cd dt mfs
  · rintro x rfl; exact configure_ra_some s x cd dt mfs

/-- Witness for C10: configuring from the defaults with an oversized
concurrency, an absent timeout, a tiny file-size cap and an absent retry
count clamps into range. -/
theorem configure_download_settings_spec_witness :
    SettingsInRange
      (configure_download_settings initSettings (some 99) none (some 0) none)
    ∧ (configure_download_settings initSettings (some 99) none (some 0) none).download_timeout
      = initSettings.download_timeout
    ∧ (configure_download_settings initSettings (some 99) none (some 0) none).concurrent_downloads
      = max 1 (min 99 20) :=
  ⟨(configure_download_settings_spec initSettings (some 99) none (some 0) none).2.1
      (by decide),
   (configure_download_settings_spec initSettings (some 99) none (some 0) none).2.2.2.2.1
      rfl,
   (configure_download_settings_spec initSettings (some 99) none (some 0) none).2.2.2.1
      99 rfl⟩

lemma processResults_length {Req Res : Type} (outcome : Nat → Except String Res) :
    ∀ (l : List Req) (i : Nat), (processResults outcome i l).length = l.length := by
  intro l
  induction l with
  | nil => intro i; rfl
  | cons req rest ih =>
    intro i
    show (processResults outcome i (req :: rest)).length = rest.length + 1
    unfold processResults
    rw [List.length_cons, ih (i + 1)]

lemma processResults_get {Req Res : Type} (outcome : Nat → Except String Res) :
    ∀ (l : List Req) (i k : Nat),
      (processResults outcome i l).get? k
        = (l.get? k).map (fun req =>
            match outcome (i + k) with
            | .ok r => BatchResult.done r
            | .error e => BatchResult.failed e req) := by
  intro l
  induction l with
  | nil => intro i k; rfl
  | cons req rest ih =>
    intro i k
    cases k with
    | zero =>
      have hi0 : i + 0 = i := Nat.add_zero i
      cases houtcome : outcome (i + 0) <;>
        rw [hi0] at houtcome <;>
        simp [processResults, houtcome]
    | succ k =>
      show (processResults outcome (i + 1) rest).get? k = _
      rw [ih (i + 1) k]
      have : i + 1 + k = i + (k + 1) := by omega
      rw [this]
      rfl

/-- **C3.** `download_multiple_files` returns one result per request, in
request order: the result list has the length of the request list, and
slot `i` is the `i`-th task's own result when it returned and the failure
record `{success: False, error, request}` built from `requests[i]` when it
raised — the batch is never cancelled and never raises. -/
theorem download_multiple_files_spec {Req Res : Type} (requests : List Req)
    (outcome : Nat → Except String Res) :
    (download_multiple_files requests outcome).length = requests.length
    ∧ ∀ k req, requests.get? k = some req →
        (download_multiple_files requests outcome).get? k
          = some (match outcome k with
                  | .ok r => BatchResult.done r
                  | .error e => BatchResult.failed e req) := by
  constructor
  · exact processResults_length outcome requests 0
  · intro k req hreq
    unfold download_multiple_files
    rw [processResults_get outcome requests 0 k, hreq]
    rw [Nat.zero_add]
    rfl

/-- Witness for C3: a two-request batch where task 0 succeeds and task 1
raises keeps both slots in order. -/
theorem download_multiple_files_spec_witness :
    (download_multiple_files ["reqA", "reqB"]
        (fun i => if i = 0 then Except.ok "resA" else Except.error "boom")
        : List (BatchResult String String)).length = 2
    ∧ (download_multiple_files ["reqA", "reqB"]
        (fun i => if i = 0 then Except.ok "resA" else Except.error "boom")).get? 1
      = some (BatchResult.failed "boom" "reqB") :=
  ⟨(download_multiple_files_spec ["reqA", "reqB"]
      (fun i => if i = 0 then Except.ok "resA" else Except.error "boom")).1,
   (download_multiple_files_spec ["reqA", "reqB"]
      (fun i => if i = 0 then Except.ok "resA" else Except.error "boom")).2
      1 "reqB" rfl⟩

/-- When every attempt in the window fails, the navigation loop returns
`False` and bumps `errors` exactly when the final attempt raised. -/
lemma navigateLoop_exhaust (outcomes : Nat → NavOutcome) :
    ∀ (r a : Nat) (stats : ScrapeStats),
      (∀ k, k ≤ r → outcomes (a + k) ≠ NavOutcome.success) →
      navigateLoop outcomes a (r + 1) stats
        = (false,
           { stats with errors := stats.errors
               + if outcomes (a + r) = NavOutcome.navError then 1 else 0 }) := by
  intro r
  induction r with
  | zero =>
    intro a stats hfail
    have h0 : outcomes a ≠ NavOutcome.success := by
      have := hfail 0 (le_refl 0)
      rwa [Nat.add_zero] at this
    cases hout : outcomes a with
    | success => exact absurd hout h0
    | blocked => simp [navigateLoop, hout]
    | navError => simp [navigateLoop, hout]
  | succ r ih =>
    intro a stats hfail
    have h0 : outcomes a ≠ NavOutcome.success := by
      have := hfail 0 (by omega)
      rwa [Nat.add_zero] at this
    have hrec : navigateLoop outcomes a (r + 1 + 1) stats
        = navigateLoop outcomes (a + 1) (r + 1) stats := by
      cases hout : outcomes a with
      | success => exact absurd hout h0
      | blocked => simp [navigateLoop, hout]
      | navError => simp [navigateLoop, hout]
    rw [hrec, ih (a + 1) stats (fun k hk => by
      have := hfail (k + 1) (by omega)
      rwa [show a + (k + 1) = a + 1 + k by omega] at this)]
    have harith : a + 1 + r = a + (r + 1) := by omega
    rw [harith]

/-- Counterexample to C5 as stated: three attempts all failing by detected
blocking return `False` but leave the errors counter untouched, not
incremented by one. -/
theorem navigate_blocked_no_error_increment :
    navigate_to_page (fun _ => NavOutcome.blocked) 3
        { pages_visited := 0, errors := 0 }
      = (false, { pages_visited := 0, errors := 0 })
    ∧ ({ pages_visited := 0, errors := 0 } : ScrapeStats).errors + 1 ≠ 0 := by
  exact ⟨by decide, by decide⟩

/-- **C5 (amended).** When `navigate_to_page` exhausts all its attempts it
returns `False` rather than raising and leaves `pages_visited` unchanged;
the `scraping_stats` errors counter is incremented by one exactly when the
final attempt failed with a navigation exception, and is left unchanged
when the final attempt failed by detected blocking. -/
theorem navigate_to_page_exhaust_spec (outcomes : Nat → NavOutcome)
    (retries : Nat) (stats : ScrapeStats) (hr : 0 < retries)
    (hfail : ∀ k, k < retries → outcomes k ≠ NavOutcome.success) :
    (navigate_to_page outcomes retries stats).1 = false
    ∧ (navigate_to_page outcomes retries stats).2.pages_visited
        = stats.pages_visited
    ∧ (navigate_to_page outcomes retries stats).2.errors
        = stats.errors
            + (if outcomes (retries - 1) = NavOutcome.navError then 1 else 0) := by
  rcases retries with _ | r
  · omega
  · have h := navigateLoop_exhaust outcomes r 0 stats
      (fun k hk => by
        have := hfail k (by omega)
        rwa [show (0 : Nat) + k = k from Nat.zero_add k])
    unfold navigate_to_page
    rw [h]
    refine ⟨rfl, rfl, ?_⟩
    rw [Nat.zero_add, Nat.succ_sub_one]

/-- Witness for C5 on two attempts that both raise navigation errors: the
call returns `False` with the errors counter bumped by one. -/
theorem navigate_to_page_exhaust_spec_witness :
    (navigate_to_page (fun _ => NavOutcome.navError) 2
        { pages_visited := 0, errors := 5 }).1 = false
    ∧ (navigate_to_page (fun _ => NavOutcome.navError) 2
        { pages_visited := 0, errors := 5 }).2.pages_visited = 0
    ∧ (navigate_to_page (fun _ => NavOutcome.navError) 2
        { pages_visited := 0, errors := 5 }).2.errors
      = 5 + (if (fun _ => NavOutcome.navError) (2 - 1) = NavOutcome.navError
             then 1 else 0) :=
  navigate_to_page_exhaust_spec (fun _ => NavOutcome.navError) 2
    { pages_visited := 0, errors := 5 } (by decide)
    (fun _ _ h => NavOutcome.noConfusion h)

/-- Unfolding the retry loop one step on a failing non-final attempt. -/
lemma downloadLoop_error_step (mfs : Nat) (resp : Nat → FetchOutcome) (a r : Nat)
    (e : String) (rf : Bool)
    (hatt : attemptResult mfs (resp a) = (Except.error e, rf)) (hr : r ≠ 0) :
    downloadLoop mfs resp a (r + 1)
      = { fetches := (downloadLoop mfs resp (a + 1) r).fetches + 1
          bodiesRead := (if rf then 1 else 0)
            + (downloadLoop mfs resp (a + 1) r).bodiesRead
          delays := 2 ^ a :: (downloadLoop mfs resp (a + 1) r).delays
          result := (downloadLoop mfs resp (a + 1) r).result } := by
  conv_lhs => rw [downloadLoop.eq_def]
  simp [hatt, hr]

/-- Unfolding the retry loop on a failing final attempt: re-raise. -/
lemma downloadLoop_error_last (mfs : Nat) (resp : Nat → FetchOutcome) (a : Nat)
    (e : String) (rf : Bool)
    (hatt : attemptResult mfs (resp a) = (Except.error e, rf)) :
    downloadLoop mfs resp a 1
      = { fetches := 1, bodiesRead := if rf then 1 else 0, delays := []
          result := Except.error e } := by
  conv_lhs => rw [downloadLoop.eq_def]
  simp [hatt]

/-- An attempt whose response declares an oversized `Content-Length`
raises `ValueError` without reading the body. -/
lemma attemptResult_oversized (mfs n : Nat) (body : List Nat) (hn : mfs < n) :
    attemptResult mfs (FetchOutcome.ok 200 (some n) body)
      = (Except.error ("File too large: " ++ toString n ++ " bytes"), false) := by
  simp [attemptResult, hn]

/-- When every attempt of the window answers with an oversized
`Content-Length`, the loop reads no body, fetches once per attempt, and
ends by raising. -/
lemma downloadLoop_oversized (mfs : Nat) (resp : Nat → FetchOutcome) :
    ∀ (r a : Nat),
      (∀ k, k ≤ r → ∃ n body,
        resp (a + k) = FetchOutcome.ok 200 (some n) body ∧ mfs < n) →
      (downloadLoop mfs resp a (r + 1)).bodiesRead = 0
      ∧ (downloadLoop mfs resp a (r + 1)).fetches = r + 1
      ∧ ∃ e, (downloadLoop mfs resp a (r + 1)).result = Except.error e := by
  intro r
  induction r with
  | zero =>
    intro a hbig
    obtain ⟨n, body, hresp, hn⟩ := hbig 0 (le_refl 0)
    rw [Nat.add_zero] at hresp
    have hatt := attemptResult_oversized mfs n body hn
    rw [← hresp] at hatt
    rw [downloadLoop_error_last mfs resp a _ false hatt]
    exact ⟨rfl, rfl, _, rfl⟩
  | succ r ih =>
    intro a hbig
    obtain ⟨n, body, hresp, hn⟩ := hbig 0 (by omega)
    rw [Nat.add_zero] at hresp
    have hatt := attemptResult_oversized mfs n body hn
    rw [← hresp] at hatt
    obtain ⟨hb, hf, e, he⟩ := ih (a + 1) (fun k hk => by
      have := hbig (k + 1) (by omega)
      rwa [show a + (k + 1) = a + 1 + k by omega] at this)
    rw [downloadLoop_error_step mfs resp a (r + 1) _ false hatt (by omega)]
    refine ⟨?_, ?_, e, ?_⟩
    · simp [hb]
    · simp [hf]
    · exact he

/-- Counterexample to C4 as stated: with `retry_attempts = 3` and a server
that always declares `Content-Length = 1000` against
`max_file_size = 100`, the oversized rejection is retried — three GETs are
issued and two backoff sleeps are performed, not a single fail-fast
attempt. -/
theorem oversized_is_retried_counterexample :
    (downloadFileData 100 3 (fun _ => FetchOutcome.ok 200 (some 1000) [1, 2, 3])).fetches = 3
    ∧ (downloadFileData 100 3 (fun _ => FetchOutcome.ok 200 (some 1000) [1, 2, 3])).delays
        = [1, 2]
    ∧ ¬ ((downloadFileData 100 3
          (fun _ => FetchOutcome.ok 200 (some 1000) [1, 2, 3])).fetches ≤ 1) := by
  refine ⟨by decide, by decide, by decide⟩

/-- **C4 (amended).** A response declaring `Content-Length` above
`max_file_size` is rejected before the body is read (no body is ever
read), no exception escapes `download_media_file` — the result has
`success = False` and a populated `error` — but the rejection is retried
with backoff on every attempt (one GET per attempt, `retry_attempts` GETs
in total) rather than failing fast. -/
theorem oversized_rejection_spec (mfs ra : Nat) (resp : Nat → FetchOutcome)
    (hra : 0 < ra)
    (hbig : ∀ k, k < ra → ∃ n body,
      resp k = FetchOutcome.ok 200 (some n) body ∧ mfs < n) :
    (downloadFileData mfs ra resp).bodiesRead = 0
    ∧ (downloadFileData mfs ra resp).fetches = ra
    ∧ (∃ e, (downloadFileData mfs ra resp).result = Except.error e)
    ∧ ∀ (ts ext : String) (saveOk : Bool) (movie_id : Nat)
        (file_type quality : String) (st : DMState),
        generate_filename movie_id file_type quality ts ext ∉ st.store →
        (download_media_file mfs ra ⟨true, resp, ts, ext, saveOk⟩
            movie_id file_type quality false st).1.success = false
        ∧ ((download_media_file mfs ra ⟨true, resp, ts, ext, saveOk⟩
            movie_id file_type quality false st).1.error).isSome = true
        ∧ (download_media_file mfs ra ⟨true, resp, ts, ext, saveOk⟩
            movie_id file_type quality false st).2.fetchCount
          = st.fetchCount + ra := by
  rcases ra with _ | r
  · omega
  · have h := downloadLoop_oversized mfs resp r 0 (fun k hk => by
      have := hbig k (by omega)
      rwa [show (0 : Nat) + k = k from Nat.zero_add k])
    obtain ⟨hb, hf, e, he⟩ := h
    have hb' : (downloadFileData mfs (r + 1) resp).bodiesRead = 0 := hb
    have hf' : (downloadFileData mfs (r + 1) resp).fetches = r + 1 := hf
    have he' : (downloadFileData mfs (r + 1) resp).result = Except.error e := he
    refine ⟨hb', hf', ⟨e, he'⟩, ?_⟩
    intro ts ext saveOk movie_id file_type quality st hmem
    unfold download_media_file
    rw [if_neg (by simp)]
    rw [if_neg (by simp [hmem])]
    simp only [he']
    refine ⟨?_, ?_, ?_⟩ <;> simp [hf']

/-- Witness for C4 (amended) on a concrete oversized server with two
attempts against an empty download directory. -/
theorem oversized_rejection_spec_witness :
    (downloadFileData 100 2 (fun _ => FetchOutcome.ok 200 (some 101) [])).bodiesRead = 0
    ∧ (downloadFileData 100 2 (fun _ => FetchOutcome.ok 200 (some 101) [])).fetches = 2
    ∧ ((download_media_file 100 2
          ⟨true, fun _ => FetchOutcome.ok 200 (some 101) [], "ts", ".jpg", true⟩
          1 "poster" "orig" false ⟨[], 0⟩).1.success = false
        ∧ ((download_media_file 100 2
          ⟨true, fun _ => FetchOutcome.ok 200 (some 101) [], "ts", ".jpg", true⟩
          1 "poster" "orig" false ⟨[], 0⟩).1.error).isSome = true
        ∧ (download_media_file 100 2
          ⟨true, fun _ => FetchOutcome.ok 200 (some 101) [], "ts", ".jpg", true⟩
          1 "poster" "orig" false ⟨[], 0⟩).2.fetchCount
          = (⟨[], 0⟩ : DMState).fetchCount + 2) := by
  have h := oversized_rejection_spec 100 2
    (fun _ => FetchOutcome.ok 200 (some 101) []) (by decide)
    (fun k _ => ⟨101, [], rfl, by decide⟩)
  exact ⟨h.1, h.2.1,
    h.2.2.2 "ts" ".jpg" true 1 "poster" "orig" ⟨[], 0⟩ (by decide)⟩

/-- Environment of the C1 runs: valid URL, a server that answers every
GET with a small file, and — most favourably for the idempotence claim —
the *same* clock timestamp for both calls. -/
def c1Env : DownloadEnv :=
  { validUrl := true
    responses := fun _ => FetchOutcome.ok 200 (some 3) [1, 2, 3]
    ts := "20250101_000000"
    ext := ".jpg"
    saveOk := true }

/-- First `download_media_file(url, 1, "poster", "original",
force_download=False)` call against an empty download directory. -/
def c1Call1 : MDResult × DMState :=
  download_media_file (100 * 1024 * 1024) 3 c1Env 1 "poster" "original" false
    { store := [], fetchCount := 0 }

/-- Second call with identical arguments, on the state the first call
left behind. -/
def c1Call2 : MDResult × DMState :=
  download_media_file (100 * 1024 * 1024) 3 c1Env 1 "poster" "original" false
    c1Call1.2

/-- **C1 (code bug).** `download_media_file` is not download-idempotent:
the existing-file check looks for the `_generate_filename` name
`movie_1_poster_original_20250101_000000.jpg`, but the storage service
saved the first download under `20250101_000000_movie_1_poster.jpg`, so
even with identical arguments and an identical timestamp the check misses
and the second call fetches over the network again (the GET counter goes
from 1 to 2). -/
theorem download_media_file_refetches_despite_existing :
    c1Call1.1.success = true
    ∧ c1Call1.2.fetchCount = 1
    ∧ c1Call1.2.store = ["20250101_000000_movie_1_poster.jpg"]
    ∧ generate_filename 1 "poster" "original" "20250101_000000" ".jpg"
        = "movie_1_poster_original_20250101_000000.jpg"
    ∧ generate_filename 1 "poster" "original" "20250101_000000" ".jpg"
        ∉ c1Call1.2.store
    ∧ c1Call2.1.success = true
    ∧ c1Call2.2.fetchCount = 2 := by
  refine ⟨?_, ?_, ?_, ?_, ?_, ?_, ?_⟩ <;> decide

/-- Python's `max(b :: l, key=f)` returns an element of the list that
maximises `f`, and every element strictly before it scores strictly
lower (ties go to the first maximiser). -/
lemma maxByFirst_spec (f : ProxyInfo → ℚ) :
    ∀ (l : List ProxyInfo) (b : ProxyInfo),
      ∃ i, (b :: l).get? i = some (maxByFirst f b l)
        ∧ (∀ q ∈ b :: l, f q ≤ f (maxByFirst f b l))
        ∧ (∀ q ∈ (b :: l).take i, f q < f (maxByFirst f b l)) := by
  intro l
  induction l with
  | nil =>
    intro b
    refine ⟨0, rfl, ?_, ?_⟩
    · intro q hq
      rcases List.mem_singleton.mp hq with rfl
      exact le_refl _
    · intro q hq
      simp at hq
  | cons p ps ih =>
    intro b
    have hstep : maxByFirst f b (p :: ps)
        = maxByFirst f (if f b < f p then p else b) ps := rfl
    by_cases hbp : f b < f p
    · obtain ⟨i, hget, hmax, hstrict⟩ := ih p
      rw [hstep, if_pos hbp]
      refine ⟨i + 1, hget, ?_, ?_⟩
      · intro q hq
        rcases List.mem_cons.mp hq with rfl | hq'
        · exact le_of_lt (lt_of_lt_of_le hbp (hmax p (List.mem_cons_self p ps)))
        · exact hmax q hq'
      · intro q hq
        rw [List.take_succ_cons] at hq
        rcases List.mem_cons.mp hq with rfl | hq'
        · exact lt_of_lt_of_le hbp (hmax p (List.mem_cons_self p ps))
        · exact hstrict q hq'
    · obtain ⟨i, hget, hmax, hstrict⟩ := ih b
      rw [hstep, if_neg hbp]
      cases i with
      | zero =>
        have hcb : b = maxByFirst f b ps := by
          have : some b = some (maxByFirst f b ps) := hget
          exact Option.some.inj this
        refine ⟨0, ?_, ?_, ?_⟩
        · show some b = some (maxByFirst f b ps)
          rw [← hcb]
        · intro q hq
          rcases List.mem_cons.mp hq with rfl | hq'
          · exact hmax q (List.mem_cons_self q ps)
          · rcases List.mem_cons.mp hq' with rfl | hq''
            · exact le_trans (not_lt.mp hbp) (hmax b (List.mem_cons_self b ps))
            · exact hmax q (List.mem_cons_of_mem b hq'')
        · intro q hq
          simp at hq
      | succ i' =>
        have hb_lt : f b < f (maxByFirst f b ps) := by
          apply hstrict
          rw [List.take_succ_cons]
          exact List.mem_cons_self b _
        refine ⟨i' + 2, hget, ?_, ?_⟩
        · intro q hq
          rcases List.mem_cons.mp hq with rfl | hq'
          · exact hmax q (List.mem_cons_self q ps)
          · rcases List.mem_cons.mp hq' with rfl | hq''
            · exact le_trans (not_lt.mp hbp) (hmax b (List.mem_cons_self b ps))
            · exact hmax q (List.mem_cons_of_mem b hq'')
        · intro q hq
          rw [List.take_succ_cons, List.take_succ_cons] at hq
          rcases List.mem_cons.mp hq with rfl | hq'
          · exact hb_lt
          · rcases List.mem_cons.mp hq' with rfl | hq''
            · exact lt_of_le_of_lt (not_lt.mp hbp) hb_lt
            · exact hstrict q (by
                rw [List.take_succ_cons]
                exact List.mem_cons_of_mem b hq'')

/-- The working proxy with no recorded requests used in the C9
counterexample: the code scores it `0.5`, the claim's formula `0`. -/
def c9ProxyA : ProxyInfo := { host := "a", port := 1 }

/-- A working proxy with 1 success and 2 failures: score `1/3` under both
the code's formula and the claim's. -/
def c9ProxyB : ProxyInfo := { host := "b", port := 2, success_count := 1, failure_count := 2 }

/-- Pool holding the two C9 proxies, both working. -/
def c9Pool : ProxyManager := { proxies := [c9ProxyA, c9ProxyB] }

lemma c9_working : c9Pool.working = [c9ProxyA, c9ProxyB] := rfl

lemma c9_scoreA : calculateScore c9ProxyA = 1/2 := by
  norm_num [calculateScore, c9ProxyA]

lemma c9_scoreB : calculateScore c9ProxyB = 1/3 := by
  norm_num [calculateScore, c9ProxyB, min_def]

lemma c9_claimedA : claimedScore c9ProxyA = 0 := by
  norm_num [claimedScore, c9ProxyA, min_def]

lemma c9_claimedB : claimedScore c9ProxyB = 1/3 := by
  norm_num [claimedScore, c9ProxyB, min_def]

lemma getBestProxy_c9Pool : getBestProxy c9Pool = some c9ProxyA := by
  unfold getBestProxy
  rw [c9_working]
  show some (maxByFirst calculateScore c9ProxyA [c9ProxyB]) = some c9ProxyA
  unfold maxByFirst
  simp only [List.foldl_cons, List.foldl_nil]
  rw [if_neg (by rw [c9_scoreA, c9_scoreB]; norm_num)]

/-- Counterexample to C9 as stated: `get_best_proxy` keeps the untested
proxy (neutral score `0.5` in the code), although its score under the
claim's formula `success/(success+failure) − min(avg/10, 1)` is `0`,
strictly below the other working proxy's `1/3` — so the returned proxy
does not maximise the claimed score. -/
theorem getBestProxy_claimed_score_counterexample :
    getBestProxy c9Pool = some c9ProxyA
    ∧ c9ProxyB ∈ c9Pool.working
    ∧ claimedScore c9ProxyA < claimedScore c9ProxyB
    ∧ calculateScore c9ProxyA = 1/2
    ∧ claimedScore c9ProxyA = 0 := by
  refine ⟨getBestProxy_c9Pool, ?_, ?_, c9_scoreA, c9_claimedA⟩
  · rw [c9_working]
    exact List.mem_cons_of_mem _ (List.mem_cons_self _ _)
  · rw [c9_claimedA, c9_claimedB]
    norm_num

/-- **C9 (amended).** `get_best_proxy` returns `None` exactly when no
working proxy exists; otherwise it returns a working proxy maximising the
code's `calculate_score` — success rate minus capped time penalty for
proxies with recorded requests, neutral `0.5` for untested ones — with
ties broken in favour of the first such proxy in pool order. -/
theorem getBestProxy_spec (m : ProxyManager) :
    (getBestProxy m = none ↔ m.working = [])
    ∧ ∀ p, getBestProxy m = some p →
        ∃ i, (m.working).get? i = some p
          ∧ (∀ q ∈ m.working, calculateScore q ≤ calculateScore p)
          ∧ (∀ q ∈ (m.working).take i, calculateScore q < calculateScore p) := by
  cases hw : m.working with
  | nil =>
    have hnone : getBestProxy m = none := by
      unfold getBestProxy
      rw [hw]
    constructor
    · exact ⟨fun _ => rfl, fun _ => hnone⟩
    · intro p hp
      rw [hnone] at hp
      exact Option.noConfusion hp
  | cons b l =>
    have hsome : getBestProxy m = some (maxByFirst calculateScore b l) := by
      unfold getBestProxy
      rw [hw]
    constructor
    · constructor
      · intro h
        rw [hsome] at h
        exact Option.noConfusion h
      · intro h
        exact List.noConfusion h
    · intro p hp
      rw [hsome] at hp
      have hpe : maxByFirst calculateScore b l = p := Option.some.inj hp
      obtain ⟨i, hget, hmax, hstrict⟩ := maxByFirst_spec calculateScore l b
      rw [hpe] at hget hmax hstrict
      exact ⟨i, hget, hmax, hstrict⟩

/-- Witness for C9 on the concrete two-proxy pool: the other working
proxy scores no better than the returned one. -/
theorem getBestProxy_spec_witness :
    calculateScore c9ProxyB ≤ calculateScore c9ProxyA := by
  obtain ⟨i, hget, hmax, hstrict⟩ :=
    (getBestProxy_spec c9Pool).2 c9ProxyA getBestProxy_c9Pool
  apply hmax
  rw [c9_working]
  exact List.mem_cons_of_mem _ (List.mem_cons_self _ _)

end IMDbScraper
